import Mathlib

/-!
Verification of the packet-reassembly and telemetry-decoding core of the
`hughes_power_watchdog` integration (`custom_components/hughes_power_watchdog/`,
chiefly `models.py`, `const.py` and `button.py`).

Embedding conventions:
* a byte is a `Nat` (always `< 256` in real traffic; the arithmetic below is
  meaningful for any `Nat`, matching Python where indexing a `bytes` object
  yields `0..255`);
* Python `bytearray`/`bytes` become `List Nat`;
* Python floats and `round(x, n)` become exact rationals with `round` modelled
  as round-half-to-even (Python 3 banker rounding) at `n` decimal digits;
* `struct.unpack_from(">i"/">H"/">I", buf, o)` becomes explicit big-endian
  recombination of the bytes at offsets `o..`, raising (`Option.none`) exactly
  when the buffer is too short;
* the mutable `self._rx_buffer` / `self.data` / `self.sensors` state becomes a
  `ManagerState` record threaded through the functions, and the side effect of
  `sensor.async_write_ha_state()` becomes an explicit event list: each
  successful telemetry decode appends one event holding the sensor list that
  was iterated (in registration order).
-/

namespace PowerWatchdog

/-! ### Constants (`const.py`) -/

def PACKET_IDENTIFIER : Nat := 0x24797740

def PACKET_TAIL : Nat := 0x7121

/-- 4 (identifier) + 1 (version) + 1 (msgId) + 1 (cmd) + 2 (dataLen). -/
def HEADER_SIZE : Nat := 9

def TAIL_SIZE : Nat := 2

def MAX_BUFFER_SIZE : Nat := 8192

def CMD_DL_REPORT : Nat := 1

def CMD_ERROR_REPORT : Nat := 2

def CMD_ALARM : Nat := 14

def DL_DATA_SIZE : Nat := 34

/-- `const.py`: pre-built energy-reset command, as the hex string literal. -/
def CMD_RESET_ENERGY : String := "2479774001060300007121"

/-! ### Byte-level helpers (`struct.unpack_from` and `bytes.fromhex`) -/

/-- Big-endian unsigned 16-bit value from two bytes (`struct.unpack(">H")`). -/
def beU16 (b0 b1 : Nat) : Nat := b0 * 256 + b1

/-- Big-endian unsigned 32-bit value from four bytes (`struct.unpack(">I")`). -/
def beU32 (b0 b1 b2 b3 : Nat) : Nat := ((b0 * 256 + b1) * 256 + b2) * 256 + b3

/-- Reinterpret an unsigned 32-bit value as signed two-complement
(`struct.unpack(">i")`). -/
def toI32 (v : Nat) : Int := if v < 2 ^ 31 then (v : Int) else (v : Int) - 2 ^ 32

/-- Signed big-endian 32-bit integer read at offset `i` of `l`
(in-bounds reads only reach the `getD` defaults when `l` is too short;
callers guard the length first, as `struct.unpack_from` raises there). -/
def i32At (l : List Nat) (i : Nat) : Int :=
  toI32 (beU32 (l.getD i 0) (l.getD (i + 1) 0) (l.getD (i + 2) 0) (l.getD (i + 3) 0))

/-- One hex digit (`bytes.fromhex` digit handling). -/
def hexDigit (c : Char) : Option Nat :=
  if '0' ≤ c ∧ c ≤ '9' then some (c.toNat - '0'.toNat)
  else if 'a' ≤ c ∧ c ≤ 'f' then some (c.toNat - 'a'.toNat + 10)
  else if 'A' ≤ c ∧ c ≤ 'F' then some (c.toNat - 'A'.toNat + 10)
  else none

/-- Decode a list of hex digits two at a time into bytes. -/
def hexPairs : List Char → Option (List Nat)
  | [] => some []
  | [_] => none
  | c1 :: c2 :: rest => do
    let h ← hexDigit c1
    let l ← hexDigit c2
    let r ← hexPairs rest
    pure ((h * 16 + l) :: r)

/-- `bytes.fromhex` (the constant decoded in `button.py` contains no spaces,
so the space-skipping of `fromhex` is irrelevant and not modelled). -/
def bytesFromHex (s : String) : Option (List Nat) := hexPairs s.data

/-! ### Python `round` on exact rationals -/

/-- Round a rational to the nearest integer, ties to even (Python `round`). -/
def roundHalfEven (q : Rat) : Int :=
  if q - q.floor < 1 / 2 then q.floor
  else if 1 / 2 < q - q.floor then q.floor + 1
  else if q.floor % 2 = 0 then q.floor else q.floor + 1

/-- Python `round(q, n)`: round to `n` decimal digits, ties to even. -/
def pyRound (q : Rat) (n : Nat) : Rat :=
  (roundHalfEven (q * 10 ^ n) : Rat) / 10 ^ n

/-! ### Data model (`models.py` dataclasses) -/

/-- `LineData`: parsed power data for a single AC line (L1 or L2).
All fields default to `None` before the first decode. -/
structure LineData where
  voltage : Option Rat
  current : Option Rat
  power : Option Rat
  energy : Option Rat
  output_voltage : Option Rat
  frequency : Option Rat
  error_code : Option Nat
  status : Option Nat
  boost : Option Bool
deriving DecidableEq

/-- Dataclass field defaults: every field `None`. -/
def LineData.init : LineData :=
  ⟨none, none, none, none, none, none, none, none, none⟩

/-- `WatchdogData`: container for the latest parsed telemetry. -/
structure WatchdogData where
  l1 : LineData
  l2 : LineData
  has_l2 : Bool
deriving DecidableEq

/-- Dataclass defaults: fresh `LineData` for both lines, `has_l2 = False`. -/
def WatchdogData.init : WatchdogData := ⟨LineData.init, LineData.init, false⟩

/-! ### DLData decode (`PowerWatchdogManager._parse_dl_data`) -/

/-- Parse a single 34-byte DLData block at offset `o` of `body`.
`none` corresponds to `struct.unpack_from` / indexing raising when fewer than
`o + 34` bytes are available (the last read touches `body[o+33]`); success and
the produced values agree with the source for every length `≥ o + 34`. -/
def parse_dl_data (body : List Nat) (o : Nat) : Option LineData :=
  if body.length < o + DL_DATA_SIZE then none
  else
    let voltage_raw := i32At body o
    let current_raw := i32At body (o + 4)
    let power_raw := i32At body (o + 8)
    let energy_raw := i32At body (o + 12)
    -- o+16 … o+19 = reserved (temp1), not read
    let output_v_raw := i32At body (o + 20)
    let boost := body.getD (o + 26) 0 == 1
    let freq_raw := i32At body (o + 28)
    let error_code := body.getD (o + 32) 0
    let status := body.getD (o + 33) 0
    some
      { voltage := some (pyRound ((voltage_raw : Rat) / 10000) 1)
        current := some (pyRound ((current_raw : Rat) / 10000) 2)
        power := some (pyRound ((power_raw : Rat) / 10000) 1)
        energy := some (pyRound ((energy_raw : Rat) / 10000) 2)
        output_voltage := some (pyRound ((output_v_raw : Rat) / 10000) 1)
        frequency := some (pyRound ((freq_raw : Rat) / 100) 1)
        error_code := some error_code
        status := some status
        boost := some boost }

/-- `PowerWatchdogManager._parse_dl_report`: update the snapshot from a
DLReport body.  The returned `Bool` records whether the sensor-notification
loop at the end of the method ran (it is skipped by the early `return` on an
unexpected body length).  The `none` fallbacks are unreachable: for the guarded
lengths `parse_dl_data` always succeeds (`parse_dl_data_eq`). -/
def parse_dl_report (body : List Nat) (data : WatchdogData) : WatchdogData × Bool :=
  if body.length = DL_DATA_SIZE then
    match parse_dl_data body 0 with
    | some l1 => ({ data with l1 := l1, has_l2 := false }, true)
    | none => (data, false)
  else if body.length = DL_DATA_SIZE * 2 then
    match parse_dl_data body 0, parse_dl_data body DL_DATA_SIZE with
    | some l1, some l2 => ({ l1 := l1, l2 := l2, has_l2 := true }, true)
    | _, _ => (data, false)
  else (data, false)

/-- Command dispatch at the end of `_try_parse_packet`: only `CMD_DL_REPORT`
touches the snapshot and notifies sensors; `CMD_ERROR_REPORT`, `CMD_ALARM` and
unknown commands only log. -/
def dispatch (cmd : Nat) (body : List Nat) (data : WatchdogData) :
    WatchdogData × Bool :=
  if cmd = CMD_DL_REPORT then parse_dl_report body data
  else (data, false)

/-! ### Packet extraction (`PowerWatchdogManager._try_parse_packet`) -/

/-- Outcome of one extraction attempt, following the taxonomy of the spec:
`needMoreData` ↔ the method returns `False`; the two `True` returns are split
into `invalidDiscarded` (huge dataLen, or bad tail) and `packet` (a frame that
reached the dispatch). -/
inductive ParseStep where
  | needMoreData
  | invalidDiscarded
  | packet (cmd : Nat) (body : List Nat)
deriving DecidableEq

/-- The resynchronization loop at the top of `_try_parse_packet`:
`while len(buf) >= 4: if unpack(">I", buf, 0) == PACKET_IDENTIFIER: break;
del buf[0]`. -/
def resync : List Nat → List Nat
  | b0 :: b1 :: b2 :: b3 :: rest =>
    if beU32 b0 b1 b2 b3 = PACKET_IDENTIFIER then b0 :: b1 :: b2 :: b3 :: rest
    else resync (b1 :: b2 :: b3 :: rest)
  | l => l

/-- `_try_parse_packet`, as a pure function from the buffer to the outcome and
the buffer left behind.  After `resync`, the nine header bytes are matched as
nine cons cells (`len(buf) < HEADER_SIZE` is exactly the fall-through case:
`resync` never stops with `4 ≤ len < 9` unless the identifier already heads
the buffer, in which case the frame is merely incomplete, also `needMoreData`).
`rest` holds the bytes after the header, so the source reads become:
`cmd = buf[6] = b6`, `data_len = unpack(">H", buf, 7) = beU16 b7 b8`,
`len(buf) < total_len ↔ rest.length < data_len + TAIL_SIZE`,
`body = buf[9:9+data_len] = rest.take data_len`,
`tail = unpack(">H", buf, 9+data_len) = beU16 rest[data_len] rest[data_len+1]`,
`del buf[:4] = keep b4…b8 ++ rest`, `del buf[:total_len] = rest.drop (data_len+2)`. -/
def try_parse_packet (buf : List Nat) : ParseStep × List Nat :=
  match resync buf with
  | b0 :: b1 :: b2 :: b3 :: b4 :: b5 :: b6 :: b7 :: b8 :: rest =>
    -- data_len = beU16 b7 b8, total completeness check, body, tail, consume
    if MAX_BUFFER_SIZE < beU16 b7 b8 then
      (.invalidDiscarded, b4 :: b5 :: b6 :: b7 :: b8 :: rest)
    else if rest.length < beU16 b7 b8 + TAIL_SIZE then
      (.needMoreData, b0 :: b1 :: b2 :: b3 :: b4 :: b5 :: b6 :: b7 :: b8 :: rest)
    else if beU16 (rest.getD (beU16 b7 b8) 0) (rest.getD (beU16 b7 b8 + 1) 0)
        ≠ PACKET_TAIL then
      (.invalidDiscarded, rest.drop (beU16 b7 b8 + TAIL_SIZE))
    else
      (.packet b6 (rest.take (beU16 b7 b8)), rest.drop (beU16 b7 b8 + TAIL_SIZE))
  | r => (.needMoreData, r)

/-- Everything one `_notification_handler` invocation produces: the final
buffer and snapshot, the extracted (valid-tail) packets in order, and one
notification event per successful telemetry decode, each holding the sensor
list that was iterated. -/
structure LoopResult where
  buf : List Nat
  data : WatchdogData
  packets : List (Nat × List Nat)
  notifs : List (List Nat)
deriving DecidableEq

/-- The `while self._try_parse_packet(): pass` loop.  The Python loop is
unbounded; here it is fuel-indexed to stay executable, and
`parseLoop_fuel_stable` shows any fuel above `buf.length` gives the same
result, so `runLoop` (the fuel picked by `notification_handler`) is the
loop's actual fixed point. -/
def parseLoop : Nat → List Nat → WatchdogData → List Nat → LoopResult
  | 0, buf, data, _ => ⟨buf, data, [], []⟩
  | fuel + 1, buf, data, sensors =>
    match try_parse_packet buf with
    | (.needMoreData, buf1) => ⟨buf1, data, [], []⟩
    | (.invalidDiscarded, buf1) => parseLoop fuel buf1 data sensors
    | (.packet cmd body, buf1) =>
      ⟨(parseLoop fuel buf1 (dispatch cmd body data).1 sensors).buf,
       (parseLoop fuel buf1 (dispatch cmd body data).1 sensors).data,
       (cmd, body) :: (parseLoop fuel buf1 (dispatch cmd body data).1 sensors).packets,
       (if (dispatch cmd body data).2 then [sensors] else [])
         ++ (parseLoop fuel buf1 (dispatch cmd body data).1 sensors).notifs⟩

/-- The extraction loop with enough fuel to reach its fixed point. -/
def runLoop (buf : List Nat) (data : WatchdogData) (sensors : List Nat) :
    LoopResult :=
  parseLoop (buf.length + 1) buf data sensors

/-- The mutable manager state touched by the notification path:
`self._rx_buffer`, `self.data`, and the registered sensor list
(sensors are identified by opaque `Nat` handles). -/
structure ManagerState where
  buf : List Nat
  data : WatchdogData
  sensors : List Nat
deriving DecidableEq

/-- `PowerWatchdogManager._notification_handler`: append the chunk, clear on
overflow (without attempting extraction), otherwise run the extraction loop
to its fixed point.  Also returns the packets and notification events. -/
def notification_handler (st : ManagerState) (raw : List Nat) :
    ManagerState × List (Nat × List Nat) × List (List Nat) :=
  if MAX_BUFFER_SIZE < (st.buf ++ raw).length then (⟨[], st.data, st.sensors⟩, [], [])
  else
    (⟨(runLoop (st.buf ++ raw) st.data st.sensors).buf,
      (runLoop (st.buf ++ raw) st.data st.sensors).data, st.sensors⟩,
     (runLoop (st.buf ++ raw) st.data st.sensors).packets,
     (runLoop (st.buf ++ raw) st.data st.sensors).notifs)

/-- Feed a list of chunks through the notification handler one at a time,
concatenating the packets and notification events. -/
def feedChunks (st : ManagerState) : List (List Nat) →
    ManagerState × List (Nat × List Nat) × List (List Nat)
  | [] => (st, [], [])
  | c :: rest =>
    ((feedChunks (notification_handler st c).1 rest).1,
     (notification_handler st c).2.1 ++ (feedChunks (notification_handler st c).1 rest).2.1,
     (notification_handler st c).2.2 ++ (feedChunks (notification_handler st c).1 rest).2.2)

/-! ### Frame construction (the layout of §3 of the spec / `models.py` header) -/

/-- A frame with the standard identifier but an arbitrary two-byte tail. -/
def mkFrameT (version msgId cmd : Nat) (body : List Nat) (t0 t1 : Nat) :
    List Nat :=
  0x24 :: 0x79 :: 0x77 :: 0x40 :: version :: msgId :: cmd ::
    (body.length / 256) :: (body.length % 256) :: (body ++ [t0, t1])

/-- A well-formed frame: identifier, header, big-endian body length, body,
and the fixed tail `0x7121`. -/
def mkFrame (version msgId cmd : Nat) (body : List Nat) : List Nat :=
  mkFrameT version msgId cmd body 0x71 0x21

/-- The (unsigned big-endian 32-bit) window of four bytes at offset `k`:
what the resynchronization scan compares against the identifier. -/
def win4 (l : List Nat) (k : Nat) : Nat :=
  beU32 (l.getD k 0) (l.getD (k + 1) 0) (l.getD (k + 2) 0) (l.getD (k + 3) 0)

/-! ### Resynchronization lemmas -/

/-- `resync` only removes bytes from the front. -/
lemma resync_eq_drop : ∀ l : List Nat, ∃ k, resync l = l.drop k := by
  intro l
  induction l with
  | nil => exact ⟨0, rfl⟩
  | cons b0 t ih =>
    match t, ih with
    | [], _ => exact ⟨0, rfl⟩
    | [b1], _ => exact ⟨0, rfl⟩
    | [b1, b2], _ => exact ⟨0, rfl⟩
    | b1 :: b2 :: b3 :: rest, ih =>
      by_cases hid : beU32 b0 b1 b2 b3 = PACKET_IDENTIFIER
      · exact ⟨0, by simp [resync, hid]⟩
      · obtain ⟨k, hk⟩ := ih
        exact ⟨k + 1, by simp [resync, hid, hk]⟩

/-- `resync` never shrinks the buffer below its input length bound. -/
lemma resync_length_le (l : List Nat) : (resync l).length ≤ l.length := by
  obtain ⟨k, hk⟩ := resync_eq_drop l
  simp [hk]

/-- When `resync` stops with at least four bytes, the identifier heads them. -/
lemma resync_head : ∀ (l : List Nat) (b0 b1 b2 b3 : Nat) (rest : List Nat),
    resync l = b0 :: b1 :: b2 :: b3 :: rest →
    beU32 b0 b1 b2 b3 = PACKET_IDENTIFIER := by
  intro l
  induction l with
  | nil => intro b0 b1 b2 b3 rest h; simp [resync] at h
  | cons a0 t ih =>
    match t, ih with
    | [], _ => intro b0 b1 b2 b3 rest h; simp [resync] at h
    | [a1], _ => intro b0 b1 b2 b3 rest h; simp [resync] at h
    | [a1, a2], _ => intro b0 b1 b2 b3 rest h; simp [resync] at h
    | a1 :: a2 :: a3 :: arest, ih =>
      intro b0 b1 b2 b3 rest h
      by_cases hid : beU32 a0 a1 a2 a3 = PACKET_IDENTIFIER
      · simp only [resync, if_pos hid] at h
        obtain ⟨rfl, rfl, rfl, rfl, rfl⟩ :
            a0 = b0 ∧ a1 = b1 ∧ a2 = b2 ∧ a3 = b3 ∧ arest = rest := by
          simpa using h
        exact hid
      · simp only [resync, if_neg hid] at h
        exact ih b0 b1 b2 b3 rest h

/-- `resync` is idempotent. -/
lemma resync_idem (l : List Nat) : resync (resync l) = resync l := by
  match hr : resync l with
  | [] => simp [resync]
  | [b0] => simp [resync]
  | [b0, b1] => simp [resync]
  | [b0, b1, b2] => simp [resync]
  | b0 :: b1 :: b2 :: b3 :: rest =>
    have hid := resync_head l b0 b1 b2 b3 rest hr
    simp [resync, hid]

/-- Appending bytes after the buffer commutes with resynchronization: the drop
decisions already taken on `a` are unaffected by later bytes. -/
lemma resync_append : ∀ a c : List Nat, resync (a ++ c) = resync (resync a ++ c) := by
  intro a
  induction a with
  | nil => intro c; simp [resync]
  | cons b0 t ih =>
    match t, ih with
    | [], _ => intro c; simp [resync]
    | [b1], _ => intro c; simp [resync]
    | [b1, b2], _ => intro c; simp [resync]
    | b1 :: b2 :: b3 :: rest, ih =>
      intro c
      by_cases hid : beU32 b0 b1 b2 b3 = PACKET_IDENTIFIER
      · have h1 : resync (b0 :: b1 :: b2 :: b3 :: rest) = b0 :: b1 :: b2 :: b3 :: rest := by
          simp only [resync, if_pos hid]
        rw [h1]
      · have h1 : resync (b0 :: b1 :: b2 :: b3 :: rest) = resync (b1 :: b2 :: b3 :: rest) := by
          simp only [resync, if_neg hid]
        have h2 : resync ((b0 :: b1 :: b2 :: b3 :: rest) ++ c)
            = resync ((b1 :: b2 :: b3 :: rest) ++ c) := by
          simp only [List.cons_append]
          simp only [resync, if_neg hid]
        rw [h1, h2, ih c]

/-! ### Extraction-step lemmas -/

/-- `try_parse_packet` depends on the buffer only through `resync`. -/
lemma try_parse_congr (a b : List Nat) (h : resync a = resync b) :
    try_parse_packet a = try_parse_packet b := by
  unfold try_parse_packet
  rw [h]

/-- Unfolding of `try_parse_packet` when resynchronization leaves a full
header. -/
lemma try_parse_eq_of_resync (a : List Nat) (b0 b1 b2 b3 b4 b5 b6 b7 b8 : Nat)
    (rest : List Nat)
    (hr : resync a = b0 :: b1 :: b2 :: b3 :: b4 :: b5 :: b6 :: b7 :: b8 :: rest) :
    try_parse_packet a =
      (if MAX_BUFFER_SIZE < beU16 b7 b8 then
        (.invalidDiscarded, b4 :: b5 :: b6 :: b7 :: b8 :: rest)
      else if rest.length < beU16 b7 b8 + TAIL_SIZE then
        (.needMoreData, b0 :: b1 :: b2 :: b3 :: b4 :: b5 :: b6 :: b7 :: b8 :: rest)
      else if beU16 (rest.getD (beU16 b7 b8) 0) (rest.getD (beU16 b7 b8 + 1) 0)
          ≠ PACKET_TAIL then
        (.invalidDiscarded, rest.drop (beU16 b7 b8 + TAIL_SIZE))
      else
        (.packet b6 (rest.take (beU16 b7 b8)), rest.drop (beU16 b7 b8 + TAIL_SIZE))) := by
  unfold try_parse_packet
  rw [hr]

/-- On a `needMoreData` outcome the buffer left behind is exactly the
resynchronized buffer (only garbage prefix bytes were dropped). -/
lemma needMore_buf (a : List Nat) (r : List Nat)
    (h : try_parse_packet a = (.needMoreData, r)) : r = resync a := by
  unfold try_parse_packet at h
  split at h
  · next b0 b1 b2 b3 b4 b5 b6 b7 b8 rest heq =>
    split at h
    · simp_all
    · split at h
      · simp_all
      · split at h <;> simp_all
  · simp_all

/-- Progress: every outcome other than `needMoreData` removes at least four
bytes from the buffer. -/
lemma try_parse_progress (a : List Nat) (s : ParseStep) (r : List Nat)
    (h : try_parse_packet a = (s, r)) (hs : s ≠ .needMoreData) :
    r.length + 4 ≤ a.length := by
  have hlen := resync_length_le a
  unfold try_parse_packet at h
  split at h
  · next b0 b1 b2 b3 b4 b5 b6 b7 b8 rest heq =>
    rw [heq] at hlen
    simp only [List.length_cons] at hlen
    split at h
    · injection h with h1 h2
      subst h2
      simp only [List.length_cons]
      omega
    · split at h
      · injection h with h1 h2
        exact absurd h1.symm hs
      · split at h
        · injection h with h1 h2
          subst h2
          simp only [List.length_drop]
          omega
        · injection h with h1 h2
          subst h2
          simp only [List.length_drop]
          omega
  · simp_all

/-- After a `needMoreData` stop, later chunks see exactly the leftover
buffer: the step on `a ++ c` equals the step on `leftover ++ c`. -/
lemma try_parse_needMore_append (a c r : List Nat)
    (h : try_parse_packet a = (.needMoreData, r)) :
    try_parse_packet (a ++ c) = try_parse_packet (r ++ c) := by
  apply try_parse_congr
  rw [needMore_buf a r h, resync_append]

/-- A consuming step is oblivious to bytes appended after the buffer: the
same outcome occurs and the appended bytes survive untouched at the end. -/
lemma try_parse_consume_append (a c : List Nat) (s : ParseStep) (r : List Nat)
    (h : try_parse_packet a = (s, r)) (hs : s ≠ .needMoreData) :
    try_parse_packet (a ++ c) = (s, r ++ c) := by
  unfold try_parse_packet at h
  split at h
  · next b0 b1 b2 b3 b4 b5 b6 b7 b8 rest heq =>
    have hid : beU32 b0 b1 b2 b3 = PACKET_IDENTIFIER := resync_head a _ _ _ _ _ heq
    have hra : resync (a ++ c)
        = b0 :: b1 :: b2 :: b3 :: b4 :: b5 :: b6 :: b7 :: b8 :: (rest ++ c) := by
      rw [resync_append, heq]
      simp only [List.cons_append]
      simp only [resync, if_pos hid]
    rw [try_parse_eq_of_resync (a ++ c) b0 b1 b2 b3 b4 b5 b6 b7 b8 (rest ++ c) hra]
    split at h
    · next hbig =>
      rw [if_pos hbig]
      injection h with h1 h2
      subst h1; subst h2
      simp
    · next hbig =>
      rw [if_neg hbig]
      split at h
      · injection h with h1 h2
        exact absurd h1.symm hs
      · next hwait =>
        have hcomplete : beU16 b7 b8 + TAIL_SIZE ≤ rest.length := by omega
        have hwait2 : ¬ (rest ++ c).length < beU16 b7 b8 + TAIL_SIZE := by
          simp only [List.length_append]
          omega
        rw [if_neg hwait2,
          List.getD_append _ _ _ _ (by
            simp only [TAIL_SIZE] at hcomplete; omega),
          List.getD_append _ _ _ _ (by
            simp only [TAIL_SIZE] at hcomplete; omega),
          List.take_append_of_le_length (by omega),
          List.drop_append_of_le_length hcomplete]
        split at h
        · next htail =>
          rw [if_pos htail]
          injection h with h1 h2
          subst h1; subst h2
          rfl
        · next htail =>
          rw [if_neg htail]
          injection h with h1 h2
          subst h1; subst h2
          rfl
  · injection h with h1 h2
    exact absurd h1.symm hs

/-- The `needMoreData` leftover is a fixed point of the extraction step:
running it again consumes nothing further, so the loop genuinely stops. -/
lemma try_parse_needMore_fix (a r : List Nat)
    (h : try_parse_packet a = (.needMoreData, r)) :
    try_parse_packet r = (.needMoreData, r) := by
  have hr := needMore_buf a r h
  have : try_parse_packet r = try_parse_packet a := by
    apply try_parse_congr
    rw [hr, resync_idem]
  rw [this, h]

/-! ### Extraction-loop lemmas -/

lemma parseLoop_nil (f : Nat) (d : WatchdogData) (s : List Nat) :
    parseLoop f [] d s = ⟨[], d, [], []⟩ := by
  cases f <;> rfl

lemma parseLoop_succ_needMore (f : Nat) (buf : List Nat) (d : WatchdogData)
    (s : List Nat) (r : List Nat) (h : try_parse_packet buf = (.needMoreData, r)) :
    parseLoop (f + 1) buf d s = ⟨r, d, [], []⟩ := by
  simp only [parseLoop]
  rw [h]

lemma parseLoop_succ_invalid (f : Nat) (buf : List Nat) (d : WatchdogData)
    (s : List Nat) (r : List Nat) (h : try_parse_packet buf = (.invalidDiscarded, r)) :
    parseLoop (f + 1) buf d s = parseLoop f r d s := by
  simp only [parseLoop]
  rw [h]

lemma parseLoop_succ_packet (f : Nat) (buf : List Nat) (d : WatchdogData)
    (s : List Nat) (cmd : Nat) (body r : List Nat)
    (h : try_parse_packet buf = (.packet cmd body, r)) :
    parseLoop (f + 1) buf d s =
      ⟨(parseLoop f r (dispatch cmd body d).1 s).buf,
       (parseLoop f r (dispatch cmd body d).1 s).data,
       (cmd, body) :: (parseLoop f r (dispatch cmd body d).1 s).packets,
       (if (dispatch cmd body d).2 then [s] else [])
         ++ (parseLoop f r (dispatch cmd body d).1 s).notifs⟩ := by
  simp only [parseLoop]
  rw [h]

/-- Any fuel strictly above the buffer length produces the fixed-point run:
the Python `while` loop, which has no fuel bound, is `runLoop`. -/
lemma parseLoop_stable : ∀ (n : Nat) (buf : List Nat), buf.length ≤ n →
    ∀ (f : Nat) (d : WatchdogData) (s : List Nat), buf.length < f →
    parseLoop f buf d s = runLoop buf d s := by
  intro n
  induction n with
  | zero =>
    intro buf hn f d s hf
    obtain rfl : buf = [] := List.length_eq_zero.mp (Nat.le_zero.mp hn)
    rw [parseLoop_nil]
    unfold runLoop
    rw [parseLoop_nil]
  | succ n ih =>
    intro buf hn f d s hf
    obtain ⟨f, rfl⟩ : ∃ g, f = g + 1 := ⟨f - 1, by omega⟩
    unfold runLoop
    rcases h : try_parse_packet buf with ⟨s', r⟩
    cases s' with
    | needMoreData =>
      rw [parseLoop_succ_needMore _ _ _ _ _ h, parseLoop_succ_needMore _ _ _ _ _ h]
    | invalidDiscarded =>
      have hp := try_parse_progress buf _ r h (by simp)
      rw [parseLoop_succ_invalid _ _ _ _ _ h, parseLoop_succ_invalid _ _ _ _ _ h,
        ih r (by omega) f d s (by omega), ih r (by omega) buf.length d s (by omega)]
    | packet cmd body =>
      have hp := try_parse_progress buf _ r h (by simp)
      rw [parseLoop_succ_packet _ _ _ _ _ _ _ h, parseLoop_succ_packet _ _ _ _ _ _ _ h,
        ih r (by omega) f (dispatch cmd body d).1 s (by omega),
        ih r (by omega) buf.length (dispatch cmd body d).1 s (by omega)]

/-- The extraction loop only depends on the buffer through the first
extraction step (and hence through `resync`). -/
lemma runLoop_congr (a b : List Nat) (d : WatchdogData) (s : List Nat)
    (h : try_parse_packet a = try_parse_packet b) :
    runLoop a d s = runLoop b d s := by
  rcases ha : try_parse_packet a with ⟨s', r⟩
  have hb : try_parse_packet b = (s', r) := by rw [← h, ha]
  unfold runLoop
  cases s' with
  | needMoreData =>
    rw [parseLoop_succ_needMore _ _ _ _ _ ha, parseLoop_succ_needMore _ _ _ _ _ hb]
  | invalidDiscarded =>
    have hpa := try_parse_progress a _ r ha (by simp)
    have hpb := try_parse_progress b _ r hb (by simp)
    rw [parseLoop_succ_invalid _ _ _ _ _ ha, parseLoop_succ_invalid _ _ _ _ _ hb,
      parseLoop_stable r.length r le_rfl a.length d s (by omega),
      parseLoop_stable r.length r le_rfl b.length d s (by omega)]
  | packet cmd body =>
    have hpa := try_parse_progress a _ r ha (by simp)
    have hpb := try_parse_progress b _ r hb (by simp)
    rw [parseLoop_succ_packet _ _ _ _ _ _ _ ha, parseLoop_succ_packet _ _ _ _ _ _ _ hb,
      parseLoop_stable r.length r le_rfl a.length (dispatch cmd body d).1 s (by omega),
      parseLoop_stable r.length r le_rfl b.length (dispatch cmd body d).1 s (by omega)]

lemma runLoop_needMore (a r : List Nat) (d : WatchdogData) (s : List Nat)
    (h : try_parse_packet a = (.needMoreData, r)) :
    runLoop a d s = ⟨r, d, [], []⟩ := by
  unfold runLoop
  rw [parseLoop_succ_needMore _ _ _ _ _ h]

lemma runLoop_invalid (a r : List Nat) (d : WatchdogData) (s : List Nat)
    (h : try_parse_packet a = (.invalidDiscarded, r)) :
    runLoop a d s = runLoop r d s := by
  have hp := try_parse_progress a _ r h (by simp)
  unfold runLoop
  rw [parseLoop_succ_invalid _ _ _ _ _ h,
    parseLoop_stable r.length r le_rfl a.length d s (by omega)]
  rfl

lemma runLoop_packet (a : List Nat) (cmd : Nat) (body r : List Nat)
    (d : WatchdogData) (s : List Nat)
    (h : try_parse_packet a = (.packet cmd body, r)) :
    runLoop a d s =
      ⟨(runLoop r (dispatch cmd body d).1 s).buf,
       (runLoop r (dispatch cmd body d).1 s).data,
       (cmd, body) :: (runLoop r (dispatch cmd body d).1 s).packets,
       (if (dispatch cmd body d).2 then [s] else [])
         ++ (runLoop r (dispatch cmd body d).1 s).notifs⟩ := by
  have hp := try_parse_progress a _ r h (by simp)
  unfold runLoop
  rw [parseLoop_succ_packet _ _ _ _ _ _ _ h,
    parseLoop_stable r.length r le_rfl a.length (dispatch cmd body d).1 s (by omega)]
  rfl

/-- The extraction loop never grows the buffer. -/
lemma runLoop_length_le : ∀ (n : Nat) (buf : List Nat), buf.length ≤ n →
    ∀ (d : WatchdogData) (s : List Nat),
    (runLoop buf d s).buf.length ≤ buf.length := by
  intro n
  induction n with
  | zero =>
    intro buf hn d s
    obtain rfl : buf = [] := List.length_eq_zero.mp (Nat.le_zero.mp hn)
    unfold runLoop
    rw [parseLoop_nil]
  | succ n ih =>
    intro buf hn d s
    rcases h : try_parse_packet buf with ⟨s', r⟩
    cases s' with
    | needMoreData =>
      rw [runLoop_needMore _ _ _ _ h]
      have := needMore_buf buf r h
      subst this
      exact resync_length_le buf
    | invalidDiscarded =>
      have hp := try_parse_progress buf _ r h (by simp)
      rw [runLoop_invalid _ _ _ _ h]
      have := ih r (by omega) d s
      omega
    | packet cmd body =>
      have hp := try_parse_progress buf _ r h (by simp)
      rw [runLoop_packet _ _ _ _ _ _ h]
      have := ih r (by omega) (dispatch cmd body d).1 s
      dsimp only
      omega

/-- After the extraction loop stops, another extraction attempt on the final
buffer reports `needMoreData` and consumes nothing: the loop has reached the
fixed point of the step. -/
lemma runLoop_fix : ∀ (n : Nat) (buf : List Nat), buf.length ≤ n →
    ∀ (d : WatchdogData) (s : List Nat),
    try_parse_packet (runLoop buf d s).buf = (.needMoreData, (runLoop buf d s).buf) := by
  intro n
  induction n with
  | zero =>
    intro buf hn d s
    obtain rfl : buf = [] := List.length_eq_zero.mp (Nat.le_zero.mp hn)
    unfold runLoop
    rw [parseLoop_nil]
    rfl
  | succ n ih =>
    intro buf hn d s
    rcases h : try_parse_packet buf with ⟨s', r⟩
    cases s' with
    | needMoreData =>
      rw [runLoop_needMore _ _ _ _ h]
      exact try_parse_needMore_fix buf r h
    | invalidDiscarded =>
      have hp := try_parse_progress buf _ r h (by simp)
      rw [runLoop_invalid _ _ _ _ h]
      exact ih r (by omega) d s
    | packet cmd body =>
      have hp := try_parse_progress buf _ r h (by simp)
      rw [runLoop_packet _ _ _ _ _ _ h]
      exact ih r (by omega) (dispatch cmd body d).1 s

/-- Fragmentation transparency at the loop level: running the loop on
`a ++ c` is running it on `a`, then running it on the leftover of `a`
followed by `c`, concatenating the extracted packets and notifications. -/
lemma runLoop_append : ∀ (n : Nat) (a : List Nat), a.length ≤ n →
    ∀ (c : List Nat) (d : WatchdogData) (s : List Nat),
    runLoop (a ++ c) d s =
      ⟨(runLoop ((runLoop a d s).buf ++ c) (runLoop a d s).data s).buf,
       (runLoop ((runLoop a d s).buf ++ c) (runLoop a d s).data s).data,
       (runLoop a d s).packets
         ++ (runLoop ((runLoop a d s).buf ++ c) (runLoop a d s).data s).packets,
       (runLoop a d s).notifs
         ++ (runLoop ((runLoop a d s).buf ++ c) (runLoop a d s).data s).notifs⟩ := by
  intro n
  induction n with
  | zero =>
    intro a hn c d s
    obtain rfl : a = [] := List.length_eq_zero.mp (Nat.le_zero.mp hn)
    have h0 : runLoop [] d s = ⟨[], d, [], []⟩ := by
      unfold runLoop
      rw [parseLoop_nil]
    rw [h0]
    simp
  | succ n ih =>
    intro a hn c d s
    rcases h : try_parse_packet a with ⟨s', r⟩
    cases s' with
    | needMoreData =>
      rw [runLoop_needMore _ _ _ _ h,
        runLoop_congr (a ++ c) (r ++ c) d s (try_parse_needMore_append a c r h)]
      simp
    | invalidDiscarded =>
      have hp := try_parse_progress a _ r h (by simp)
      rw [runLoop_invalid _ _ _ _ h,
        runLoop_invalid (a ++ c) (r ++ c) d s (try_parse_consume_append a c _ r h (by simp)),
        ih r (by omega) c d s]
    | packet cmd body =>
      have hp := try_parse_progress a _ r h (by simp)
      rw [runLoop_packet _ _ _ _ _ _ h,
        runLoop_packet (a ++ c) cmd body (r ++ c) d s
          (try_parse_consume_append a c _ r h (by simp)),
        ih r (by omega) c (dispatch cmd body d).1 s]
      dsimp only
      simp

/-! ### Notification-handler lemmas -/

lemma handler_overflow (st : ManagerState) (raw : List Nat)
    (h : MAX_BUFFER_SIZE < (st.buf ++ raw).length) :
    notification_handler st raw = (⟨[], st.data, st.sensors⟩, [], []) := by
  unfold notification_handler
  rw [if_pos h]

lemma handler_run (st : ManagerState) (raw : List Nat)
    (h : ¬ MAX_BUFFER_SIZE < (st.buf ++ raw).length) :
    notification_handler st raw =
      (⟨(runLoop (st.buf ++ raw) st.data st.sensors).buf,
        (runLoop (st.buf ++ raw) st.data st.sensors).data, st.sensors⟩,
       (runLoop (st.buf ++ raw) st.data st.sensors).packets,
       (runLoop (st.buf ++ raw) st.data st.sensors).notifs) := by
  unfold notification_handler
  rw [if_neg h]

lemma feedChunks_nil (st : ManagerState) : feedChunks st [] = (st, [], []) := rfl

lemma feedChunks_cons (st : ManagerState) (c : List Nat) (rest : List (List Nat)) :
    feedChunks st (c :: rest) =
      ((feedChunks (notification_handler st c).1 rest).1,
       (notification_handler st c).2.1
         ++ (feedChunks (notification_handler st c).1 rest).2.1,
       (notification_handler st c).2.2
         ++ (feedChunks (notification_handler st c).1 rest).2.2) := rfl

/-- Feeding a non-empty chunk list whose total (with the pre-existing buffer)
stays within the buffer bound behaves exactly like one loop run over the
whole concatenation. -/
lemma feed_cons_eq : ∀ (rest : List (List Nat)) (c buf : List Nat)
    (d : WatchdogData) (s : List Nat),
    (buf ++ c ++ rest.flatten).length ≤ MAX_BUFFER_SIZE →
    feedChunks ⟨buf, d, s⟩ (c :: rest) =
      (⟨(runLoop (buf ++ c ++ rest.flatten) d s).buf,
        (runLoop (buf ++ c ++ rest.flatten) d s).data, s⟩,
       (runLoop (buf ++ c ++ rest.flatten) d s).packets,
       (runLoop (buf ++ c ++ rest.flatten) d s).notifs) := by
  intro rest
  induction rest with
  | nil =>
    intro c buf d s hlen
    simp only [List.flatten_nil, List.append_nil] at hlen ⊢
    rw [feedChunks_cons, handler_run ⟨buf, d, s⟩ c (by simpa using Nat.not_lt.mpr hlen)]
    simp [feedChunks_nil]
  | cons c2 rest2 ih =>
    intro c buf d s hlen
    simp only [List.flatten_cons] at hlen ⊢
    have hlen1 : ¬ MAX_BUFFER_SIZE < (buf ++ c).length := by
      simp only [List.length_append] at hlen ⊢
      omega
    have hR1le := runLoop_length_le (buf ++ c).length (buf ++ c) le_rfl d s
    have hlen2 : ((runLoop (buf ++ c) d s).buf ++ c2 ++ rest2.flatten).length
        ≤ MAX_BUFFER_SIZE := by
      simp only [List.length_append] at hlen hR1le ⊢
      omega
    rw [feedChunks_cons, handler_run ⟨buf, d, s⟩ c hlen1]
    dsimp only
    rw [ih c2 (runLoop (buf ++ c) d s).buf (runLoop (buf ++ c) d s).data s hlen2]
    dsimp only
    rw [runLoop_append (buf ++ c).length (buf ++ c) le_rfl (c2 ++ rest2.flatten) d s]
    simp [List.append_assoc]

/-! ### Frame-level lemmas -/

lemma try_parse_mkFrameT (v m c : Nat) (body : List Nat) (t0 t1 : Nat)
    (rest : List Nat) (h : body.length ≤ MAX_BUFFER_SIZE) :
    try_parse_packet (mkFrameT v m c body t0 t1 ++ rest) =
      (if beU16 t0 t1 = PACKET_TAIL then ParseStep.packet c body
       else .invalidDiscarded, rest) := by
  have hid : beU32 0x24 0x79 0x77 0x40 = PACKET_IDENTIFIER := by decide
  have hr : resync (mkFrameT v m c body t0 t1 ++ rest)
      = 0x24 :: 0x79 :: 0x77 :: 0x40 :: v :: m :: c :: (body.length / 256)
          :: (body.length % 256) :: (body ++ t0 :: t1 :: rest) := by
    unfold mkFrameT
    simp only [List.cons_append, List.append_assoc, List.nil_append]
    simp only [resync, if_pos hid]
  rw [try_parse_eq_of_resync _ _ _ _ _ _ _ _ _ _ _ hr]
  have hdl : beU16 (body.length / 256) (body.length % 256) = body.length := by
    unfold beU16
    omega
  rw [hdl]
  rw [if_neg (Nat.not_lt.mpr h)]
  have hwait : ¬ (body ++ t0 :: t1 :: rest).length < body.length + TAIL_SIZE := by
    simp only [List.length_append, List.length_cons, TAIL_SIZE]
    omega
  rw [if_neg hwait]
  rw [List.getD_append_right body (t0 :: t1 :: rest) 0 body.length le_rfl,
    List.getD_append_right body (t0 :: t1 :: rest) 0 (body.length + 1) (by omega),
    Nat.sub_self, Nat.add_sub_cancel_left]
  rw [List.take_left body (t0 :: t1 :: rest)]
  have hdrop : (body ++ t0 :: t1 :: rest).drop (body.length + TAIL_SIZE) = rest := by
    simp only [TAIL_SIZE]
    rw [List.drop_append 2]
    rfl
  rw [hdrop]
  by_cases ht : beU16 t0 t1 = PACKET_TAIL
  · rw [if_pos ht, if_neg (by simp [ht])]
  · rw [if_neg ht, if_pos (by simp [ht])]

/-- A well-formed frame (possibly followed by further bytes) extracts as a
packet carrying its command byte and body. -/
lemma try_parse_mkFrame (v m c : Nat) (body : List Nat) (rest : List Nat)
    (h : body.length ≤ MAX_BUFFER_SIZE) :
    try_parse_packet (mkFrame v m c body ++ rest) = (.packet c body, rest) := by
  unfold mkFrame
  rw [try_parse_mkFrameT v m c body 0x71 0x21 rest h, if_pos (by decide)]

/-- `parse_dl_data` succeeds on every sufficiently long record and produces
exactly the documented fields. -/
lemma parse_dl_data_eq (body : List Nat) (o : Nat)
    (h : o + DL_DATA_SIZE ≤ body.length) :
    parse_dl_data body o = some
      { voltage := some (pyRound ((i32At body o : Rat) / 10000) 1)
        current := some (pyRound ((i32At body (o + 4) : Rat) / 10000) 2)
        power := some (pyRound ((i32At body (o + 8) : Rat) / 10000) 1)
        energy := some (pyRound ((i32At body (o + 12) : Rat) / 10000) 2)
        output_voltage := some (pyRound ((i32At body (o + 20) : Rat) / 10000) 1)
        frequency := some (pyRound ((i32At body (o + 28) : Rat) / 100) 1)
        error_code := some (body.getD (o + 32) 0)
        status := some (body.getD (o + 33) 0)
        boost := some (body.getD (o + 26) 0 == 1) } := by
  unfold parse_dl_data
  rw [if_neg (Nat.not_lt.mpr h)]

lemma runLoop_nil (d : WatchdogData) (s : List Nat) :
    runLoop [] d s = ⟨[], d, [], []⟩ := by
  unfold runLoop
  rw [parseLoop_nil]

/-- A buffer holding exactly one well-formed frame runs to one dispatched
packet, an empty buffer, and one notification event when the dispatch
notified. -/
lemma runLoop_single_frame (v m c : Nat) (body : List Nat) (d : WatchdogData)
    (s : List Nat) (h : body.length ≤ MAX_BUFFER_SIZE) :
    runLoop (mkFrame v m c body) d s =
      ⟨[], (dispatch c body d).1, [(c, body)],
        if (dispatch c body d).2 then [s] else []⟩ := by
  have hstep : try_parse_packet (mkFrame v m c body) = (.packet c body, []) := by
    have h2 := try_parse_mkFrame v m c body [] h
    rwa [List.append_nil] at h2
  rw [runLoop_packet _ _ _ _ _ _ hstep, runLoop_nil]
  simp

lemma parse_dl_report_eq_34 (body : List Nat) (d : WatchdogData)
    (h : body.length = DL_DATA_SIZE) :
    parse_dl_report body d
      = (⟨(parse_dl_data body 0).getD LineData.init, d.l2, false⟩, true) := by
  unfold parse_dl_report
  rw [if_pos h, parse_dl_data_eq body 0 (by rw [h]; omega)]
  rfl

lemma parse_dl_report_eq_68 (body : List Nat) (d : WatchdogData)
    (h : body.length = DL_DATA_SIZE * 2) :
    parse_dl_report body d
      = (⟨(parse_dl_data body 0).getD LineData.init,
          (parse_dl_data body DL_DATA_SIZE).getD LineData.init, true⟩, true) := by
  unfold parse_dl_report
  rw [if_neg (by rw [h]; decide), if_pos h,
    parse_dl_data_eq body 0 (by rw [h]; omega),
    parse_dl_data_eq body DL_DATA_SIZE (by rw [h]; omega)]
  rfl

lemma parse_dl_report_eq_other (body : List Nat) (d : WatchdogData)
    (h34 : body.length ≠ DL_DATA_SIZE) (h68 : body.length ≠ DL_DATA_SIZE * 2) :
    parse_dl_report body d = (d, false) := by
  unfold parse_dl_report
  rw [if_neg h34, if_neg h68]

lemma pyRound_zero (n : Nat) : pyRound 0 n = 0 := by
  unfold pyRound roundHalfEven
  rw [zero_mul, show ((0 : Rat).floor) = 0 from rfl]
  norm_num

lemma win4_cons (b : Nat) (l : List Nat) (k : Nat) :
    win4 (b :: l) (k + 1) = win4 l k := by
  unfold win4
  rw [show k + 1 + 1 = (k + 1) + 1 from rfl,
    show k + 1 + 2 = (k + 2) + 1 from by omega,
    show k + 1 + 3 = (k + 3) + 1 from by omega,
    List.getD_cons_succ, List.getD_cons_succ, List.getD_cons_succ,
    List.getD_cons_succ]

/-- When none of the four-byte windows inside the garbage prefix (including
those straddling into `f`) matches the identifier, resynchronization skips
the whole prefix. -/
lemma resync_append_no_id : ∀ (g f : List Nat), 4 ≤ f.length →
    (∀ k, k < g.length → win4 (g ++ f) k ≠ PACKET_IDENTIFIER) →
    resync (g ++ f) = resync f := by
  intro g
  induction g with
  | nil =>
    intro f _ _
    rw [List.nil_append]
  | cons b g' ih =>
    intro f hf hwin
    have hlen : 4 ≤ (g' ++ f).length := by
      simp only [List.length_append]
      omega
    obtain ⟨x1, x2, x3, x4, tl, htl⟩ :
        ∃ x1 x2 x3 x4 tl, g' ++ f = x1 :: x2 :: x3 :: x4 :: tl := by
      rcases hgf : g' ++ f with _ | ⟨x1, _ | ⟨x2, _ | ⟨x3, _ | ⟨x4, tl⟩⟩⟩⟩ <;>
        first
          | exact ⟨x1, x2, x3, x4, tl, rfl⟩
          | (exfalso; rw [hgf] at hlen; simp at hlen)
    have hwin0 : beU32 b x1 x2 x3 ≠ PACKET_IDENTIFIER := by
      have h0 := hwin 0 (by simp)
      rw [List.cons_append, htl] at h0
      exact h0
    rw [List.cons_append, htl, resync, if_neg hwin0, ← htl]
    exact ih f hf (by
      intro k hk
      have hk1 := hwin (k + 1) (by simpa using Nat.succ_lt_succ hk)
      rw [List.cons_append, win4_cons] at hk1
      exact hk1)

/-- A well-formed frame resynchronizes to itself. -/
lemma resync_mkFrame (v m c : Nat) (body : List Nat) :
    resync (mkFrame v m c body) = mkFrame v m c body := by
  unfold mkFrame mkFrameT
  simp only [resync,
    if_pos (by decide : beU32 0x24 0x79 0x77 0x40 = PACKET_IDENTIFIER)]

/-! ### Claim theorems -/

/-- C1 (counterexample): the pre-built reset frame's command byte — the byte
at offset 6 of the frame layout — is 3, not 6 as claimed (the value 6 sits at
offset 5, the messageId slot). -/
theorem C1_command_byte_is_3_not_6 :
    ((bytesFromHex CMD_RESET_ENERGY).getD []).getD 6 0 = 3 ∧
    ¬ ((bytesFromHex CMD_RESET_ENERGY).getD []).getD 6 0 = 6 := by
  decide

/-- C1 (amended): the pre-built outbound reset-telemetry frame
`CMD_RESET_ENERGY` is a full frame in the exact frame layout
(identifier `0x24797740`, version 1, messageId 6, command 3, big-endian
body length 0, tail `0x7121`): it decodes under the extraction step as the
packet with command byte 3 and empty body, with total length
`HEADER_SIZE + 0 + TAIL_SIZE`. -/
theorem C1_reset_frame_layout :
    bytesFromHex CMD_RESET_ENERGY = some (mkFrame 1 6 3 []) ∧
    (mkFrame 1 6 3 []).length = HEADER_SIZE + 0 + TAIL_SIZE ∧
    beU32 ((mkFrame 1 6 3 []).getD 0 0) ((mkFrame 1 6 3 []).getD 1 0)
        ((mkFrame 1 6 3 []).getD 2 0) ((mkFrame 1 6 3 []).getD 3 0)
      = PACKET_IDENTIFIER ∧
    beU16 ((mkFrame 1 6 3 []).getD 7 0) ((mkFrame 1 6 3 []).getD 8 0) = 0 ∧
    beU16 ((mkFrame 1 6 3 []).getD 9 0) ((mkFrame 1 6 3 []).getD 10 0)
      = PACKET_TAIL ∧
    try_parse_packet (mkFrame 1 6 3 []) = (.packet 3 [], []) := by
  decide

/-- C5: per-line decode of a 34-byte record is total — it succeeds for every
byte values, including negative signed fields — and yields exactly the
documented scaled fields; the reserved bytes 16-19, 24, 25 and 27 are
ignored (any record agreeing on all other bytes decodes identically). -/
theorem C5_dl_data_total :
    ∀ body : List Nat, body.length = DL_DATA_SIZE →
    (parse_dl_data body 0 = some
      { voltage := some (pyRound ((i32At body 0 : Rat) / 10000) 1)
        current := some (pyRound ((i32At body 4 : Rat) / 10000) 2)
        power := some (pyRound ((i32At body 8 : Rat) / 10000) 1)
        energy := some (pyRound ((i32At body 12 : Rat) / 10000) 2)
        output_voltage := some (pyRound ((i32At body 20 : Rat) / 10000) 1)
        frequency := some (pyRound ((i32At body 28 : Rat) / 100) 1)
        error_code := some (body.getD 32 0)
        status := some (body.getD 33 0)
        boost := some (body.getD 26 0 == 1) }) ∧
    (∀ body2 : List Nat, body2.length = DL_DATA_SIZE →
      (∀ i, i < DL_DATA_SIZE → i ∉ ([16, 17, 18, 19, 24, 25, 27] : List Nat) →
        body.getD i 0 = body2.getD i 0) →
      parse_dl_data body 0 = parse_dl_data body2 0) := by
  intro body hlen
  constructor
  · rw [parse_dl_data_eq body 0 (by omega)]
  · intro body2 hlen2 hagree
    rw [parse_dl_data_eq body 0 (by omega), parse_dl_data_eq body2 0 (by omega)]
    have f0 := hagree (0) (by decide) (by decide)
    have f1 := hagree (0 + 1) (by decide) (by decide)
    have f2 := hagree (0 + 2) (by decide) (by decide)
    have f3 := hagree (0 + 3) (by decide) (by decide)
    have f4 := hagree (4) (by decide) (by decide)
    have f5 := hagree (4 + 1) (by decide) (by decide)
    have f6 := hagree (4 + 2) (by decide) (by decide)
    have f7 := hagree (4 + 3) (by decide) (by decide)
    have f8 := hagree (8) (by decide) (by decide)
    have f9 := hagree (8 + 1) (by decide) (by decide)
    have f10 := hagree (8 + 2) (by decide) (by decide)
    have f11 := hagree (8 + 3) (by decide) (by decide)
    have f12 := hagree (12) (by decide) (by decide)
    have f13 := hagree (12 + 1) (by decide) (by decide)
    have f14 := hagree (12 + 2) (by decide) (by decide)
    have f15 := hagree (12 + 3) (by decide) (by decide)
    have f16 := hagree (20) (by decide) (by decide)
    have f17 := hagree (20 + 1) (by decide) (by decide)
    have f18 := hagree (20 + 2) (by decide) (by decide)
    have f19 := hagree (20 + 3) (by decide) (by decide)
    have f20 := hagree (26) (by decide) (by decide)
    have f21 := hagree (28) (by decide) (by decide)
    have f22 := hagree (28 + 1) (by decide) (by decide)
    have f23 := hagree (28 + 2) (by decide) (by decide)
    have f24 := hagree (28 + 3) (by decide) (by decide)
    have f25 := hagree (32) (by decide) (by decide)
    have f26 := hagree (33) (by decide) (by decide)
    simp only [i32At]
    rw [f0, f1, f2, f3, f4, f5, f6, f7, f8, f9, f10, f11, f12, f13, f14, f15, f16, f17, f18, f19, f20, f21, f22, f23, f24, f25, f26]

/-- C5 witness: the all-zero 34-byte record decodes successfully. -/
theorem C5_dl_data_total_witness :
    (parse_dl_data (List.replicate 34 0) 0).isSome = true := by
  rw [(C5_dl_data_total (List.replicate 34 0) (by decide)).1]
  rfl

/-- C7: a complete frame whose length fields are self-consistent but whose
two-byte tail differs from `0x7121` is consumed in full — exactly
`HEADER_SIZE + bodyLength + TAIL_SIZE` bytes leave the front of the buffer,
leaving any following bytes intact — without producing a packet; run on a
buffer holding only that frame, the loop ends with an empty buffer, an
unchanged snapshot, no packets and no notifications. -/
theorem C7_bad_tail_consumed :
    ∀ (v m c : Nat) (body : List Nat) (t0 t1 : Nat) (rest : List Nat)
      (d : WatchdogData) (s : List Nat),
    body.length ≤ MAX_BUFFER_SIZE → beU16 t0 t1 ≠ PACKET_TAIL →
    (mkFrameT v m c body t0 t1).length = HEADER_SIZE + body.length + TAIL_SIZE ∧
    try_parse_packet (mkFrameT v m c body t0 t1 ++ rest) = (.invalidDiscarded, rest) ∧
    runLoop (mkFrameT v m c body t0 t1) d s = ⟨[], d, [], []⟩ := by
  intro v m c body t0 t1 rest d s hlen htail
  refine ⟨?_, ?_, ?_⟩
  · unfold mkFrameT
    simp [HEADER_SIZE, TAIL_SIZE]
    omega
  · rw [try_parse_mkFrameT v m c body t0 t1 rest hlen, if_neg htail]
  · have hstep : try_parse_packet (mkFrameT v m c body t0 t1)
        = (.invalidDiscarded, []) := by
      have h2 := try_parse_mkFrameT v m c body t0 t1 [] hlen
      rw [List.append_nil, if_neg htail] at h2
      exact h2
    rw [runLoop_invalid _ _ _ _ hstep]
    unfold runLoop
    rw [parseLoop_nil]

/-- C7 witness: a concrete 34-byte telemetry frame with tail `0xFFFF` is
fully consumed, leaving the snapshot untouched. -/
theorem C7_bad_tail_consumed_witness :
    runLoop (mkFrameT 1 0 1 (List.replicate 34 0) 0xFF 0xFF) WatchdogData.init []
      = ⟨[], WatchdogData.init, [], []⟩ :=
  (C7_bad_tail_consumed 1 0 1 (List.replicate 34 0) 0xFF 0xFF [] WatchdogData.init []
    (by decide) (by decide)).2.2

/-- C8: when the identifier heads the buffer, at least nine bytes are present
and the big-endian body length at offset 7 exceeds `MAX_BUFFER_SIZE`, the
step drops exactly the first four bytes (not the whole header), reports
`InvalidDiscarded`, and the loop continues on the remaining bytes — so a
legitimate frame later in the same buffer is still reached. -/
theorem C8_huge_datalen_drops_four :
    ∀ (b4 b5 b6 b7 b8 : Nat) (rest : List Nat) (fuel : Nat)
      (d : WatchdogData) (s : List Nat),
    MAX_BUFFER_SIZE < beU16 b7 b8 →
    try_parse_packet (0x24 :: 0x79 :: 0x77 :: 0x40 :: b4 :: b5 :: b6 :: b7 :: b8 :: rest)
      = (.invalidDiscarded, b4 :: b5 :: b6 :: b7 :: b8 :: rest) ∧
    parseLoop (fuel + 1) (0x24 :: 0x79 :: 0x77 :: 0x40 :: b4 :: b5 :: b6 :: b7 :: b8 :: rest) d s
      = parseLoop fuel (b4 :: b5 :: b6 :: b7 :: b8 :: rest) d s ∧
    runLoop (0x24 :: 0x79 :: 0x77 :: 0x40 :: b4 :: b5 :: b6 :: b7 :: b8 :: rest) d s
      = runLoop (b4 :: b5 :: b6 :: b7 :: b8 :: rest) d s := by
  intro b4 b5 b6 b7 b8 rest fuel d s hbig
  have hid : beU32 0x24 0x79 0x77 0x40 = PACKET_IDENTIFIER := by decide
  have hr : resync (0x24 :: 0x79 :: 0x77 :: 0x40 :: b4 :: b5 :: b6 :: b7 :: b8 :: rest)
      = 0x24 :: 0x79 :: 0x77 :: 0x40 :: b4 :: b5 :: b6 :: b7 :: b8 :: rest := by
    simp only [resync, if_pos hid]
  have hstep : try_parse_packet
      (0x24 :: 0x79 :: 0x77 :: 0x40 :: b4 :: b5 :: b6 :: b7 :: b8 :: rest)
      = (.invalidDiscarded, b4 :: b5 :: b6 :: b7 :: b8 :: rest) := by
    rw [try_parse_eq_of_resync _ _ _ _ _ _ _ _ _ _ _ hr, if_pos hbig]
  exact ⟨hstep, parseLoop_succ_invalid fuel _ d s _ hstep,
    runLoop_invalid _ _ d s hstep⟩

set_option maxRecDepth 20000 in
/-- C8 witness: a spurious header claiming body length `0x2064 = 8292` drops
only four bytes, after which the valid frame that follows is still decoded. -/
theorem C8_huge_datalen_drops_four_witness :
    runLoop (0x24 :: 0x79 :: 0x77 :: 0x40 :: 1 :: 0 :: 1 :: 0x20 :: 0x64
        :: mkFrame 1 0 2 []) WatchdogData.init []
      = ⟨[], WatchdogData.init, [(2, [])], []⟩ := by
  rw [(C8_huge_datalen_drops_four 1 0 1 0x20 0x64 (mkFrame 1 0 2 []) 0
    WatchdogData.init [] (by decide)).2.2]
  decide

/-- C9: after every append-and-extract cycle the buffer holds at most
`MAX_BUFFER_SIZE` bytes, and an append that pushes the buffered length above
the maximum clears the whole buffer, attempts no extraction, produces no
packets or notifications and leaves the snapshot unchanged. -/
theorem C9_buffer_bounded :
    ∀ (st : ManagerState) (raw : List Nat),
    (notification_handler st raw).1.buf.length ≤ MAX_BUFFER_SIZE ∧
    (MAX_BUFFER_SIZE < (st.buf ++ raw).length →
      notification_handler st raw = (⟨[], st.data, st.sensors⟩, [], [])) := by
  intro st raw
  by_cases hov : MAX_BUFFER_SIZE < (st.buf ++ raw).length
  · rw [handler_overflow st raw hov]
    exact ⟨by simp, fun _ => rfl⟩
  · rw [handler_run st raw hov]
    refine ⟨?_, fun h => absurd h hov⟩
    dsimp only
    exact le_trans
      (runLoop_length_le (st.buf ++ raw).length (st.buf ++ raw) le_rfl st.data st.sensors)
      (Nat.le_of_not_lt hov)

/-- C9 witness: an overlong chunk is dropped wholesale with no extraction. -/
theorem C9_buffer_bounded_witness :
    notification_handler ⟨[], WatchdogData.init, []⟩ (List.replicate 8193 0)
      = (⟨[], WatchdogData.init, []⟩, [], []) :=
  (C9_buffer_bounded ⟨[], WatchdogData.init, []⟩ (List.replicate 8193 0)).2
    (by show MAX_BUFFER_SIZE < (([] : List Nat) ++ List.replicate 8193 0).length
        rw [List.nil_append, List.length_replicate]
        decide)

/-- C10: liveness of the extraction loop.  Every extraction step either
reports `needMoreData` — on which the loop stops, and indeed the leftover
buffer is a fixed point of the step — or removes at least four bytes; hence
any fuel above the buffer length yields the same (fixed-point) run, i.e. the
unbounded Python loop terminates without ever reprocessing the same bytes. -/
theorem C10_progress_termination :
    (∀ (buf : List Nat) (s : ParseStep) (r : List Nat),
      try_parse_packet buf = (s, r) →
      s = .needMoreData ∨ r.length + 4 ≤ buf.length) ∧
    (∀ (fuel : Nat) (buf : List Nat) (d : WatchdogData) (sensors : List Nat),
      buf.length < fuel → parseLoop fuel buf d sensors = runLoop buf d sensors) ∧
    (∀ (buf : List Nat) (d : WatchdogData) (sensors : List Nat),
      try_parse_packet (runLoop buf d sensors).buf
        = (.needMoreData, (runLoop buf d sensors).buf)) := by
  refine ⟨?_, ?_, ?_⟩
  · intro buf s r h
    by_cases hs : s = .needMoreData
    · exact Or.inl hs
    · exact Or.inr (try_parse_progress buf s r h hs)
  · intro fuel buf d sensors hf
    exact parseLoop_stable buf.length buf le_rfl fuel d sensors hf
  · intro buf d sensors
    exact runLoop_fix buf.length buf le_rfl d sensors

/-- C10 witness: concrete instances of the three liveness facts. -/
theorem C10_progress_termination_witness :
    (ParseStep.packet 2 [] = ParseStep.needMoreData ∨
      ([] : List Nat).length + 4 ≤ (mkFrame 1 0 2 []).length) ∧
    parseLoop 12 (mkFrame 1 0 2 []) WatchdogData.init []
      = runLoop (mkFrame 1 0 2 []) WatchdogData.init [] ∧
    try_parse_packet (runLoop (mkFrame 1 0 2 []) WatchdogData.init []).buf
      = (.needMoreData, (runLoop (mkFrame 1 0 2 []) WatchdogData.init []).buf) :=
  ⟨C10_progress_termination.1 (mkFrame 1 0 2 []) (ParseStep.packet 2 []) []
      (by decide),
   C10_progress_termination.2.1 12 (mkFrame 1 0 2 []) WatchdogData.init []
      (by decide),
   C10_progress_termination.2.2 (mkFrame 1 0 2 []) WatchdogData.init []⟩

/-- C2 (counterexample): the snapshot is not replaced wholesale.  After a
two-record decode followed by a one-record decode, the snapshot's `l2` still
holds the stale line-2 values of the earlier decode (here `voltage = some 0`,
not the pre-decode `none`); only `has_l2` is reset to `false`. -/
theorem C2_stale_line2_counterexample :
    (parse_dl_report (List.replicate 34 0)
        (parse_dl_report (List.replicate 68 0) WatchdogData.init).1).1.has_l2
      = false ∧
    (parse_dl_report (List.replicate 34 0)
        (parse_dl_report (List.replicate 68 0) WatchdogData.init).1).1.l2
      = (parse_dl_report (List.replicate 68 0) WatchdogData.init).1.l2 ∧
    (parse_dl_report (List.replicate 68 0) WatchdogData.init).1.l2.voltage
      = some 0 ∧
    (parse_dl_report (List.replicate 68 0) WatchdogData.init).1.l2
      ≠ LineData.init := by
  have h68 := parse_dl_report_eq_68 (List.replicate 68 0) WatchdogData.init
    (by decide)
  have h34 := parse_dl_report_eq_34 (List.replicate 34 0)
    (parse_dl_report (List.replicate 68 0) WatchdogData.init).1 (by decide)
  refine ⟨?_, ?_, ?_, ?_⟩
  · rw [h34]
  · rw [h34]
  · rw [h68]
    dsimp only
    rw [parse_dl_data_eq (List.replicate 68 0) DL_DATA_SIZE (by decide),
      Option.getD_some]
    rw [show i32At (List.replicate 68 0) DL_DATA_SIZE = 0 from by decide]
    rw [show ((0 : Int) : Rat) / 10000 = 0 from by norm_num, pyRound_zero]
  · rw [h68]
    dsimp only
    rw [parse_dl_data_eq (List.replicate 68 0) DL_DATA_SIZE (by decide),
      Option.getD_some]
    simp [LineData.init]

/-- C2 (amended): a two-record decode replaces `l1`, `l2` and `has_l2`
together; a one-record decode replaces `l1` and sets `has_l2 := false` but
leaves the previous `l2` value in place (only the `has_l2` flag marks it
stale). -/
theorem C2_snapshot_update :
    ∀ (body : List Nat) (d : WatchdogData),
    (body.length = DL_DATA_SIZE →
      parse_dl_report body d
        = (⟨(parse_dl_data body 0).getD LineData.init, d.l2, false⟩, true)) ∧
    (body.length = DL_DATA_SIZE * 2 →
      parse_dl_report body d
        = (⟨(parse_dl_data body 0).getD LineData.init,
            (parse_dl_data body DL_DATA_SIZE).getD LineData.init, true⟩, true)) := by
  intro body d
  exact ⟨parse_dl_report_eq_34 body d, parse_dl_report_eq_68 body d⟩

/-- C2 witness: a one-record decode over a non-trivial previous snapshot
keeps the previous `l2` and clears `has_l2`. -/
theorem C2_snapshot_update_witness :
    parse_dl_report (List.replicate 34 0)
        (parse_dl_report (List.replicate 68 0) WatchdogData.init).1
      = (⟨(parse_dl_data (List.replicate 34 0) 0).getD LineData.init,
          (parse_dl_report (List.replicate 68 0) WatchdogData.init).1.l2,
          false⟩, true) :=
  (C2_snapshot_update (List.replicate 34 0)
    (parse_dl_report (List.replicate 68 0) WatchdogData.init).1).1 (by decide)

/-- C6: a telemetry-report body of exactly 34 bytes decodes line 1 and sets
`has_l2 := false`; exactly 68 bytes decodes lines 1 and 2 and sets
`has_l2 := true`; any other length leaves the snapshot unchanged and notifies
nobody.  Run on a single complete telemetry frame, the loop emits exactly one
notification event, holding the registered sensor list in registration
order, precisely when the body length is 34 or 68; frames whose command is
not the telemetry report never notify. -/
theorem C6_dl_report_dispatch :
    ∀ (body : List Nat) (d : WatchdogData) (sensors : List Nat) (v m : Nat),
    (body.length = DL_DATA_SIZE →
      parse_dl_report body d
        = (⟨(parse_dl_data body 0).getD LineData.init, d.l2, false⟩, true)) ∧
    (body.length = DL_DATA_SIZE * 2 →
      parse_dl_report body d
        = (⟨(parse_dl_data body 0).getD LineData.init,
            (parse_dl_data body DL_DATA_SIZE).getD LineData.init, true⟩, true)) ∧
    (body.length ≠ DL_DATA_SIZE → body.length ≠ DL_DATA_SIZE * 2 →
      parse_dl_report body d = (d, false)) ∧
    (body.length ≤ MAX_BUFFER_SIZE →
      (runLoop (mkFrame v m CMD_DL_REPORT body) d sensors).notifs
        = if body.length = DL_DATA_SIZE ∨ body.length = DL_DATA_SIZE * 2
          then [sensors] else []) ∧
    (∀ cmd, cmd ≠ CMD_DL_REPORT → body.length ≤ MAX_BUFFER_SIZE →
      (runLoop (mkFrame v m cmd body) d sensors).notifs = []) := by
  intro body d sensors v m
  refine ⟨parse_dl_report_eq_34 body d, parse_dl_report_eq_68 body d,
    parse_dl_report_eq_other body d, ?_, ?_⟩
  · intro hle
    rw [runLoop_single_frame v m CMD_DL_REPORT body d sensors hle]
    dsimp only
    unfold dispatch
    rw [if_pos rfl]
    by_cases h34 : body.length = DL_DATA_SIZE
    · rw [parse_dl_report_eq_34 body d h34]
      simp [h34]
    · by_cases h68 : body.length = DL_DATA_SIZE * 2
      · rw [parse_dl_report_eq_68 body d h68]
        simp [h68]
      · rw [parse_dl_report_eq_other body d h34 h68]
        simp [h34, h68]
  · intro cmd hcmd hle
    rw [runLoop_single_frame v m cmd body d sensors hle]
    dsimp only
    unfold dispatch
    rw [if_neg hcmd]
    rfl

/-- C6 witness: a 34-byte telemetry frame notifies the two registered
sensors exactly once, in registration order. -/
theorem C6_dl_report_dispatch_witness :
    (runLoop (mkFrame 1 0 CMD_DL_REPORT (List.replicate 34 0))
        WatchdogData.init [7, 8]).notifs = [[7, 8]] := by
  rw [(C6_dl_report_dispatch (List.replicate 34 0) WatchdogData.init [7, 8] 1 0).2.2.2.1
    (by decide)]
  decide

/-- C3 (counterexample): fragmentation transparency fails for sequences that
exceed the buffer maximum.  One small valid frame followed by 8200 garbage
bytes decodes to no packet when fed as a single chunk (the overflow guard
clears everything), but to one packet when the frame arrives as its own
chunk first. -/
theorem C3_overflow_counterexample :
    (feedChunks ⟨[], WatchdogData.init, []⟩
        [mkFrame 1 0 2 [] ++ List.replicate 8200 0]).2.1 = [] ∧
    (feedChunks ⟨[], WatchdogData.init, []⟩
        [mkFrame 1 0 2 [], List.replicate 8200 0]).2.1 = [(2, [])] := by
  constructor
  · rw [feedChunks_cons, handler_overflow ⟨[], WatchdogData.init, []⟩ _ (by
      show MAX_BUFFER_SIZE
        < (([] : List Nat) ++ (mkFrame 1 0 2 [] ++ List.replicate 8200 0)).length
      rw [List.nil_append, List.length_append, List.length_replicate,
        show (mkFrame 1 0 2 []).length = 11 from rfl]
      decide)]
    simp [feedChunks_nil]
  · rw [feedChunks_cons, handler_run ⟨[], WatchdogData.init, []⟩ (mkFrame 1 0 2 [])
      (by decide)]
    dsimp only
    rw [List.nil_append, runLoop_single_frame 1 0 2 [] WatchdogData.init [] (by decide)]
    dsimp only
    rw [feedChunks_cons, handler_overflow _ _ (by
      show MAX_BUFFER_SIZE < (([] : List Nat) ++ List.replicate 8200 0).length
      rw [List.nil_append, List.length_replicate]
      decide)]
    simp [feedChunks_nil]

/-- C3 (amended): fragmentation transparency holds whenever the whole byte
sequence fits in the reassembly buffer (so the overflow guard never fires):
for every split of such a sequence into chunks fed one at a time from a fresh
buffer, the final state, the decoded packets and the notification events all
equal those of feeding the entire sequence as one chunk. -/
theorem C3_fragmentation_transparency :
    ∀ (chunks : List (List Nat)) (d : WatchdogData) (s : List Nat),
    chunks.flatten.length ≤ MAX_BUFFER_SIZE →
    feedChunks ⟨[], d, s⟩ chunks = feedChunks ⟨[], d, s⟩ [chunks.flatten] := by
  intro chunks d s hlen
  cases chunks with
  | nil =>
    rw [feedChunks_nil,
      show ([] : List (List Nat)).flatten = ([] : List Nat) from rfl,
      feed_cons_eq [] [] [] d s (by simp)]
    simp [runLoop_nil]
  | cons c rest =>
    rw [feed_cons_eq rest c [] d s (by simpa [List.flatten_cons] using hlen),
      feed_cons_eq [] (c :: rest).flatten [] d s (by simpa using hlen)]
    simp [List.flatten_cons]

/-- C3 witness: a three-byte stream split into two chunks equals the
single-chunk feed. -/
theorem C3_fragmentation_transparency_witness :
    feedChunks ⟨[], WatchdogData.init, []⟩ [[0x24, 0x79], [0x77]]
      = feedChunks ⟨[], WatchdogData.init, []⟩
          [([[0x24, 0x79], [0x77]] : List (List Nat)).flatten] :=
  C3_fragmentation_transparency [[0x24, 0x79], [0x77]] WatchdogData.init []
    (by decide)

set_option maxRecDepth 40000 in
/-- C4 (counterexample): garbage that itself looks like a frame header is not
merely skipped — it steals bytes from the valid frame that follows.  The
nine-byte garbage `24797740 01 00 03 0009` claims a 9-byte body, so
extraction consumes the garbage header plus the first nine bytes of the
following valid frame (whose own last two bytes `7121` then pass the tail
check), producing a bogus packet with command 3 instead of the real packet
with command 2: `garbage ++ validFrame` does not decode like `validFrame`. -/
theorem C4_header_like_garbage_counterexample :
    (feedChunks ⟨[], WatchdogData.init, []⟩
        [[0x24, 0x79, 0x77, 0x40, 0x01, 0x00, 0x03, 0x00, 0x09]
          ++ mkFrame 1 0 2 []]).2.1
      = [(3, [0x24, 0x79, 0x77, 0x40, 1, 0, 2, 0, 0])] ∧
    (feedChunks ⟨[], WatchdogData.init, []⟩ [mkFrame 1 0 2 []]).2.1
      = [(2, [])] := by
  decide

/-- C4 (amended): a garbage prefix containing no four-byte window equal to
the identifier (including windows straddling into the frame) is skipped
without dropping the following valid frame, provided the combined bytes fit
in the reassembly buffer: `garbage ++ validFrame` feeds identically to
`validFrame` alone. -/
theorem C4_garbage_skipped :
    ∀ (g : List Nat) (v m c : Nat) (body : List Nat) (d : WatchdogData)
      (s : List Nat),
    (g ++ mkFrame v m c body).length ≤ MAX_BUFFER_SIZE →
    (∀ k, k < g.length → win4 (g ++ mkFrame v m c body) k ≠ PACKET_IDENTIFIER) →
    feedChunks ⟨[], d, s⟩ [g ++ mkFrame v m c body]
      = feedChunks ⟨[], d, s⟩ [mkFrame v m c body] := by
  intro g v m c body d s htot hwin
  have hf4 : 4 ≤ (mkFrame v m c body).length := by
    unfold mkFrame mkFrameT
    simp
  have hres : resync (g ++ mkFrame v m c body) = resync (mkFrame v m c body) :=
    resync_append_no_id g (mkFrame v m c body) hf4 hwin
  have hrl : runLoop (g ++ mkFrame v m c body) d s
      = runLoop (mkFrame v m c body) d s :=
    runLoop_congr _ _ d s (try_parse_congr _ _ hres)
  have hlef : (mkFrame v m c body).length ≤ MAX_BUFFER_SIZE := by
    have h1 : (mkFrame v m c body).length ≤ (g ++ mkFrame v m c body).length := by
      simp
    omega
  rw [feed_cons_eq [] (g ++ mkFrame v m c body) [] d s (by simpa using htot),
    feed_cons_eq [] (mkFrame v m c body) [] d s (by simpa using hlef)]
  simp only [List.flatten_nil, List.append_nil, List.nil_append]
  rw [hrl]

/-- C4 witness: two plain garbage bytes before a valid frame are skipped. -/
theorem C4_garbage_skipped_witness :
    feedChunks ⟨[], WatchdogData.init, []⟩ [[0xDE, 0xAD] ++ mkFrame 1 0 2 []]
      = feedChunks ⟨[], WatchdogData.init, []⟩ [mkFrame 1 0 2 []] :=
  C4_garbage_skipped [0xDE, 0xAD] 1 0 2 [] WatchdogData.init []
    (by decide) (by decide)

end PowerWatchdog
